import Mathlib

/-!
Shallow embedding of the Zer0Board backend's authentication and
authorization core (src/backend/app): the credential store
(app/core/security.py), the session registry and authorization resolver
(app/api/v1/dependencies.py), the login endpoint (app/api/v1/auth.py),
and the board / widget / settings / access-token write endpoints
(app/api/v1/boards.py, app/api/v1/board_access_tokens.py).

Conventions of the embedding:
- `datetime.utcnow()` is modelled as an explicit `now : Time` parameter
  (`Time := Nat`, ticks).
- The relational store is a `DB` record of lists of rows; SQLAlchemy
  `scalar_one_or_none` on a unique-keyed query is modelled as `List.find?`
  (first match), row deletion as `List.eraseP` (first match removed), and
  in-place row mutation as a `List.map` keyed on the row's primary key.
- Python truthiness on `Optional[str]` / `Optional[int]` (`if not x`) is
  modelled by `pyTruthy` / `pyTruthyNat`: `None`, `""` and `0` are falsy.
- `raise HTTPException(status, detail)` is `Except.error ⟨status, detail⟩`;
  an uncaught `ValueError` is a separate constructor where it matters.
- The bcrypt digest and the SHA-256 digest are threaded as function
  parameters (`digest`, `hash_token`): every theorem holds for an
  arbitrary digest, which is exactly the strength the code's control
  flow provides. `bcrypt.hashpw`/`bcrypt.checkpw` keep the library's
  documented behaviour of ignoring password bytes beyond the first 72.
-/

namespace Zer0Board

/-- Instants are abstract ticks; only their order matters. -/
abbrev Time := Nat

/-- Python truthiness of an `Optional[str]`: `None` and `""` are falsy. -/
def pyTruthy : Option String → Bool
  | none => false
  | some s => s ≠ ""

/-- Python truthiness of an `Optional[int]`: `None` and `0` are falsy. -/
def pyTruthyNat : Option Nat → Bool
  | none => false
  | some n => n ≠ 0

/-- app/models/user.py: the attributes the resolver and login need. -/
structure User where
  id : Nat
  username : String
  password_hash : String
  is_admin : Bool
  last_login_at : Option Time
  deriving Repr, DecidableEq

/-- app/models/board.py: the attributes the resolver needs.
`layout_config` is an opaque JSON blob, kept as a string. -/
structure Board where
  id : Nat
  owner_id : Nat
  title : String
  description : Option String
  layout_config : String
  deriving Repr, DecidableEq

/-- app/models/widget.py: board-owned widget row. `config`/`position`
are opaque JSON blobs. -/
structure Widget where
  id : Nat
  board_id : Nat
  type : String
  config : String
  position : String
  deriving Repr, DecidableEq

/-- app/models/board_settings.py: the per-board settings row mutated by
`update_board_settings`. -/
structure BoardSettings where
  board_id : Nat
  background_type : Option String
  background_source : Option String
  background_config : Option String
  resolution_width : Option Nat
  resolution_height : Option Nat
  aspect_ratio : Option String
  orientation : Option String
  auto_rotate_pages : Nat
  lockout_mode : Nat
  deriving Repr, DecidableEq

/-- app/models/session.py: `Session` row (`token` unique). -/
structure SessionRow where
  token : String
  user_id : Nat
  expires_at : Time
  deriving Repr, DecidableEq

/-- app/models/board_access_token.py: `BoardAccessToken` row
(`token_hash` unique). -/
structure BoardAccessToken where
  id : Nat
  board_id : Nat
  token_hash : String
  name : Option String
  expires_at : Option Time
  last_used_at : Option Time
  is_active : Bool
  deriving Repr, DecidableEq

/-- The relational store consulted by the resolver. -/
structure DB where
  users : List User
  boards : List Board
  widgets : List Widget
  board_settings : List BoardSettings
  sessions : List SessionRow
  access_tokens : List BoardAccessToken
  deriving Repr, DecidableEq

/-- `raise HTTPException(status_code, detail)`. -/
structure HTTPError where
  status : Nat
  detail : String
  deriving Repr, DecidableEq

/-- The credential-bearing parts of an inbound HTTP request:
the `access_token` query parameter, the `Authorization` and
`X-Access-Token` headers, and the session cookie. -/
structure Request where
  access_token_query : Option String
  authorization : Option String
  x_access_token : Option String
  session_cookie : Option String
  deriving Repr, DecidableEq

/-! ## Credential store (app/core/security.py) -/

/-- UTF-8 encoding of one character, each byte a `Nat` below 256
(`.encode("utf-8")` on one code point). -/
def utf8EncodeCharBytes (c : Char) : List Nat :=
  let n := c.toNat
  if n < 0x80 then [n]
  else if n < 0x800 then
    [0xC0 + n / 64, 0x80 + n % 64]
  else if n < 0x10000 then
    [0xE0 + n / 4096, 0x80 + n / 64 % 64, 0x80 + n % 64]
  else
    [0xF0 + n / 262144, 0x80 + n / 4096 % 64, 0x80 + n / 64 % 64,
     0x80 + n % 64]

/-- Python `s.encode("utf-8")`, as a list of byte values. -/
def strBytes (s : String) : List Nat :=
  s.data.flatMap utf8EncodeCharBytes

/-- bcrypt.hashpw / bcrypt.checkpw core: the bcrypt algorithm ignores
password bytes beyond the first 72 (documented library behaviour —
silent truncation, no error). `digest` abstracts the salted hash of the
effective input. -/
def bcrypt_effective_input (password : List Nat) : List Nat :=
  password.take 72

/-- app/core/security.py `get_password_hash` (lines 7-10): hashes the
UTF-8 encoding of the password with bcrypt; performs no length check of
its own, so bcrypt's 72-byte truncation applies silently. `.ok` means
the call returns normally; `.error` would be an uncaught `ValueError`. -/
def get_password_hash (digest : List Nat → String) (password : String) :
    Except String String :=
  .ok (digest (bcrypt_effective_input (strBytes password)))

/-- app/core/security.py `verify_password` (lines 13-21): raises
`ValueError` when `len(plain_password) > 72` — Python `len` on `str`
counts characters, not encoded bytes — and otherwise defers to
`bcrypt.checkpw` on the UTF-8 encoding. -/
def verify_password (digest : List Nat → String)
    (plain_password hashed_password : String) : Except String Bool :=
  if plain_password.length > 72 then
    .error "Password cannot be longer than 72 bytes"
  else
    .ok (digest (bcrypt_effective_input (strBytes plain_password))
          == hashed_password)

/-! ## Session registry (app/api/v1/dependencies.py) -/

/-- app/models/session.py `Session.is_expired` (lines 27-29):
`datetime.utcnow() > self.expires_at`. -/
def SessionRow.is_expired (s : SessionRow) (now : Time) : Bool :=
  now > s.expires_at

/-- app/api/v1/dependencies.py `get_session_user_id` (lines 26-43):
look up the session row by token; absent → `none`; expired → delete the
row and return `none`; else return its `user_id`. Returns the value
together with the store after any side effect. -/
def get_session_user_id (now : Time) (token : String) (db : DB) :
    Option Nat × DB :=
  match db.sessions.find? (fun s => s.token == token) with
  | none => (none, db)
  | some s =>
    if s.is_expired now then
      (none, { db with sessions := db.sessions.eraseP (fun r => r.token == token) })
    else
      (some s.user_id, db)

/-- app/api/v1/dependencies.py `get_current_user` (lines 85-112): 401 if
the cookie is missing (Python-falsy), 401 if the session does not
resolve (`if not user_id`), 401 if the user row is gone; else the user. -/
def get_current_user (now : Time) (session_token : Option String) (db : DB) :
    Except HTTPError User × DB :=
  if ¬ pyTruthy session_token then
    (.error ⟨401, "Not authenticated"⟩, db)
  else
    match session_token with
    | none => (.error ⟨401, "Not authenticated"⟩, db)
    | some tok =>
      let (user_id, db) := get_session_user_id now tok db
      if ¬ pyTruthyNat user_id then
        (.error ⟨401, "Invalid or expired session"⟩, db)
      else
        match user_id with
        | none => (.error ⟨401, "Invalid or expired session"⟩, db)
        | some uid =>
          match db.users.find? (fun u => u.id == uid) with
          | none => (.error ⟨401, "User not found"⟩, db)
          | some user => (.ok user, db)

/-- app/api/v1/dependencies.py `get_current_user_optional` (lines
115-123): swallow the `HTTPException`, keeping any session-deletion
side effect. -/
def get_current_user_optional (now : Time) (session_token : Option String)
    (db : DB) : Option User × DB :=
  match get_current_user now session_token db with
  | (.ok u, db) => (some u, db)
  | (.error _, db) => (none, db)

/-! ## Board access token registry and authorization resolver
(app/api/v1/dependencies.py `get_board_from_api_key`,
`get_board_with_auth`) -/

/-- The token-candidate extraction of `get_board_from_api_key` (lines
148-163): the `access_token` query parameter first; if that is falsy and
the `Authorization` header is truthy, the text after a `Bearer ` prefix
when present, otherwise the whole header value; if the candidate is
still falsy, the `X-Access-Token` header; a falsy final candidate means
no candidate. -/
def extract_api_token (req : Request) : Option String :=
  let token := req.access_token_query
  let token :=
    if ¬ pyTruthy token ∧ pyTruthy req.authorization then
      match req.authorization with
      | some auth =>
        if auth.startsWith "Bearer " then some (auth.drop 7) else some auth
      | none => token
    else token
  let token := if ¬ pyTruthy token then req.x_access_token else token
  if pyTruthy token then token else none

/-- The `WHERE` clause of the token query (lines 168-178): hash matches,
`is_active == True`, and `expires_at` is `NULL` or strictly in the
future. -/
def token_row_matches (now : Time) (token_hash : String)
    (t : BoardAccessToken) : Bool :=
  t.token_hash == token_hash && t.is_active &&
    (match t.expires_at with
     | none => true
     | some e => e > now)

/-- app/api/v1/dependencies.py `get_board_from_api_key` (lines 136-196):
extract a candidate; hash it; look up a usable token row joined with its
board; absent → `none`; else set that row's `last_used_at` to now and
return the board. The `.join(Board)` in the query means a row whose
board no longer exists cannot match. -/
def get_board_from_api_key (hash_token : String → String) (now : Time)
    (req : Request) (db : DB) : Option Board × DB :=
  match extract_api_token req with
  | none => (none, db)
  | some token =>
    let token_hash := hash_token token
    match db.access_tokens.find? (fun t =>
        token_row_matches now token_hash t &&
        db.boards.any (fun b => b.id == t.board_id)) with
    | none => (none, db)
    | some tokRow =>
      let db := { db with
        access_tokens := db.access_tokens.map (fun t =>
          if t.id == tokRow.id then { t with last_used_at := some now } else t) }
      (db.boards.find? (fun b => b.id == tokRow.board_id), db)

/-- The session-branch of `get_board_with_auth` (lines 213-241): with a
resolved user, load the board (404 when absent), then enforce owner-or-
admin (403), else return it; with no user, 401. -/
def session_auth_branch (board_id : Nat) (current_user : Option User)
    (db : DB) : Except HTTPError Board × DB :=
  match current_user with
  | some u =>
    match db.boards.find? (fun b => b.id == board_id) with
    | none => (.error ⟨404, "Board not found"⟩, db)
    | some board =>
      if board.owner_id ≠ u.id ∧ ¬ u.is_admin then
        (.error ⟨403, "You don\x27t have permission to access this board"⟩, db)
      else
        (.ok board, db)
  | none => (.error ⟨401, "Authentication required"⟩, db)

/-- app/api/v1/dependencies.py `get_board_with_auth` (lines 199-241).
FastAPI resolves the `get_current_user_optional` dependency before the
body runs, so any lazy session deletion happens first; the body then
tries the API-key path, returns its board when its id equals the target
`board_id`, and otherwise falls back to the session branch. -/
def get_board_with_auth (hash_token : String → String) (now : Time)
    (board_id : Nat) (req : Request) (db : DB) :
    Except HTTPError Board × DB :=
  let (current_user, db) := get_current_user_optional now req.session_cookie db
  let (board_from_key, db) := get_board_from_api_key hash_token now req db
  match board_from_key with
  | some bk =>
    if bk.id == board_id then (.ok bk, db)
    else session_auth_branch board_id current_user db
  | none => session_auth_branch board_id current_user db

/-! ## Login endpoint (app/api/v1/auth.py `login`, lines 46-112) -/

/-- Outcome of a login request: success (with the authenticated user's
id), an `HTTPException` response, or an uncaught `ValueError` escaping
from `verify_password` (surfaced by the framework as a 500-class
internal error, not an `HTTPException`). -/
inductive LoginOutcome where
  | success (user_id : Nat)
  | httpError (e : HTTPError)
  | valueError (msg : String)
  deriving Repr, DecidableEq

/-- app/api/v1/auth.py `login` (lines 46-112), up to the authentication
decision: find the user by username (absent → generic 401); verify the
password (wrong → the same generic 401; `verify_password` may instead
raise `ValueError`, which propagates uncaught); on success update
`last_login_at`. Session/cookie issuance on success follows in the
source and is outside the failure behaviour modelled here. -/
def login (digest : List Nat → String) (now : Time)
    (username password : String) (db : DB) : LoginOutcome × DB :=
  match db.users.find? (fun u => u.username == username) with
  | none => (.httpError ⟨401, "Invalid username or password"⟩, db)
  | some user =>
    match verify_password digest password user.password_hash with
    | .error msg => (.valueError msg, db)
    | .ok false => (.httpError ⟨401, "Invalid username or password"⟩, db)
    | .ok true =>
      (.success user.id,
       { db with users := db.users.map (fun u =>
           if u.id == user.id then { u with last_login_at := some now } else u) })

/-! ## Board, widget, settings and access-token write endpoints
(app/api/v1/boards.py, app/api/v1/board_access_tokens.py)

Each handler declares `current_user: User = Depends(get_current_user)`:
FastAPI resolves it from the session cookie alone before the body runs,
and an `HTTPException` raised there is the response. Each embedded
endpoint therefore takes the full `Request` and first runs
`get_current_user` on its cookie — the access-token fields of the
request are never consulted. -/

/-- Request body of `POST /boards` (`BoardCreate`). -/
structure BoardCreate where
  title : String
  description : Option String
  layout_config : Option String
  deriving Repr, DecidableEq

/-- Request body of `PUT /boards/{board_id}` (`BoardUpdate`). -/
structure BoardUpdate where
  title : Option String
  description : Option String
  layout_config : Option String
  deriving Repr, DecidableEq

/-- app/api/v1/boards.py `create_board` (lines 123-177): duplicate
`(owner_id, title)` pre-check → 400 duplicate-title conflict, nothing
persisted; else insert the new board (fresh id supplied by the store).
The `except` fallback around the commit (lines 156-168) re-checks the
same unique constraint and is unreachable in this sequential model. -/
def create_board (now : Time) (req : Request) (board_data : BoardCreate)
    (new_id : Nat) (db : DB) : Except HTTPError Board × DB :=
  match get_current_user now req.session_cookie db with
  | (.error e, db) => (.error e, db)
  | (.ok current_user, db) =>
    if db.boards.any (fun b =>
        b.owner_id == current_user.id && b.title == board_data.title) then
      (.error ⟨400, "A board with the title \x27" ++ board_data.title ++
        "\x27 already exists"⟩, db)
    else
      let board : Board :=
        { id := new_id
          owner_id := current_user.id
          title := board_data.title
          description := board_data.description
          layout_config := board_data.layout_config.getD "" }
      (.ok board, { db with boards := db.boards ++ [board] })

/-- app/api/v1/boards.py `update_board` (lines 190-285): 404 when the
board is absent, 403 unless owner or admin, 400 on a duplicate title for
the same user among other boards, else apply the partial update. -/
def update_board (now : Time) (req : Request) (board_id : Nat)
    (board_data : BoardUpdate) (db : DB) : Except HTTPError Board × DB :=
  match get_current_user now req.session_cookie db with
  | (.error e, db) => (.error e, db)
  | (.ok current_user, db) =>
    match db.boards.find? (fun b => b.id == board_id) with
    | none => (.error ⟨404, "Board not found"⟩, db)
    | some board =>
      if board.owner_id ≠ current_user.id ∧ ¬ current_user.is_admin then
        (.error ⟨403, "You don\x27t have permission to edit this board"⟩, db)
      else if board_data.title.isSome ∧ board_data.title ≠ some board.title ∧
          db.boards.any (fun b =>
            b.owner_id == current_user.id &&
            board_data.title == some b.title && b.id != board_id) then
        (.error ⟨400, "A board with the title \x27" ++
          (board_data.title.getD "") ++ "\x27 already exists"⟩, db)
      else
        let board := { board with
          title := if board_data.title.isSome ∧ board_data.title ≠ some board.title
            then board_data.title.getD board.title else board.title
          description := match board_data.description with
            | some d => some d
            | none => board.description
          layout_config := board_data.layout_config.getD board.layout_config }
        (.ok board, { db with boards := db.boards.map (fun b =>
            if b.id == board_id then board else b) })

/-- app/api/v1/boards.py `delete_board` (lines 297-330): 404 when
absent, 403 unless owner or admin, else delete the row. -/
def delete_board (now : Time) (req : Request) (board_id : Nat) (db : DB) :
    Except HTTPError Unit × DB :=
  match get_current_user now req.session_cookie db with
  | (.error e, db) => (.error e, db)
  | (.ok current_user, db) =>
    match db.boards.find? (fun b => b.id == board_id) with
    | none => (.error ⟨404, "Board not found"⟩, db)
    | some board =>
      if board.owner_id ≠ current_user.id ∧ ¬ current_user.is_admin then
        (.error ⟨403, "You don\x27t have permission to delete this board"⟩, db)
      else
        (.ok (), { db with boards := db.boards.eraseP (fun b => b.id == board_id) })

/-- The widget-type allow-list duplicated in `create_widget` and
`update_widget` (app/api/v1/boards.py lines 376-388, 473-485). -/
def valid_types : List String :=
  ["clock", "weather", "news", "calendar", "note",
   "google_calendar", "microsoft_calendar",
   "stock", "tradingview", "crypto",
   "graph", "metric",
   "email", "slack", "discord", "teams",
   "todo",
   "photo",
   "fitbit",
   "smart_home", "home_assistant",
   "qr_code",
   "bookmark"]

/-- Request body of the widget endpoints. -/
structure WidgetCreate where
  type : String
  config : Option String
  position : Option String
  deriving Repr, DecidableEq

/-- Partial-update body of `PUT /boards/{board_id}/widgets/{widget_id}`. -/
structure WidgetUpdate where
  type : Option String
  config : Option String
  position : Option String
  deriving Repr, DecidableEq

/-- app/api/v1/boards.py `create_widget` (lines 345-416): 404 / 403 as
for the other board writes, 400 on a type outside the allow-list, else
insert the widget. -/
def create_widget (now : Time) (req : Request) (board_id : Nat)
    (widget_data : WidgetCreate) (new_id : Nat) (db : DB) :
    Except HTTPError Widget × DB :=
  match get_current_user now req.session_cookie db with
  | (.error e, db) => (.error e, db)
  | (.ok current_user, db) =>
    match db.boards.find? (fun b => b.id == board_id) with
    | none => (.error ⟨404, "Board not found"⟩, db)
    | some board =>
      if board.owner_id ≠ current_user.id ∧ ¬ current_user.is_admin then
        (.error ⟨403, "You don\x27t have permission to add widgets to this board"⟩, db)
      else if ¬ widget_data.type ∈ valid_types then
        (.error ⟨400, "Invalid widget type"⟩, db)
      else
        let widget : Widget :=
          { id := new_id
            board_id := board_id
            type := widget_data.type
            config := widget_data.config.getD ""
            position := widget_data.position.getD "" }
        (.ok widget, { db with widgets := db.widgets ++ [widget] })

/-- app/api/v1/boards.py `update_widget` (lines 429-507): 404 / 403 as
above, 404 when the widget is absent on that board, 400 on an invalid
new type, else apply the partial update. -/
def update_widget (now : Time) (req : Request) (board_id widget_id : Nat)
    (widget_data : WidgetUpdate) (db : DB) : Except HTTPError Widget × DB :=
  match get_current_user now req.session_cookie db with
  | (.error e, db) => (.error e, db)
  | (.ok current_user, db) =>
    match db.boards.find? (fun b => b.id == board_id) with
    | none => (.error ⟨404, "Board not found"⟩, db)
    | some board =>
      if board.owner_id ≠ current_user.id ∧ ¬ current_user.is_admin then
        (.error ⟨403, "You don\x27t have permission to edit widgets on this board"⟩, db)
      else
        match db.widgets.find? (fun w =>
            w.id == widget_id && w.board_id == board_id) with
        | none => (.error ⟨404, "Widget not found"⟩, db)
        | some widget =>
          if widget_data.type.isSome ∧
              ¬ (widget_data.type.getD "") ∈ valid_types then
            (.error ⟨400, "Invalid widget type"⟩, db)
          else
            let widget := { widget with
              type := widget_data.type.getD widget.type
              config := widget_data.config.getD widget.config
              position := widget_data.position.getD widget.position }
            (.ok widget, { db with widgets := db.widgets.map (fun w =>
                if w.id == widget_id then widget else w) })

/-- app/api/v1/boards.py `delete_widget` (lines 519-569): 404 / 403 as
above, 404 when the widget is absent on that board, else delete it. -/
def delete_widget (now : Time) (req : Request) (board_id widget_id : Nat)
    (db : DB) : Except HTTPError Unit × DB :=
  match get_current_user now req.session_cookie db with
  | (.error e, db) => (.error e, db)
  | (.ok current_user, db) =>
    match db.boards.find? (fun b => b.id == board_id) with
    | none => (.error ⟨404, "Board not found"⟩, db)
    | some board =>
      if board.owner_id ≠ current_user.id ∧ ¬ current_user.is_admin then
        (.error ⟨403, "You don\x27t have permission to delete widgets from this board"⟩, db)
      else
        match db.widgets.find? (fun w =>
            w.id == widget_id && w.board_id == board_id) with
        | none => (.error ⟨404, "Widget not found"⟩, db)
        | some _ =>
          (.ok (), { db with widgets := db.widgets.eraseP (fun w =>
              w.id == widget_id && w.board_id == board_id) })

/-- Partial-update body of `PUT /boards/{board_id}/settings`. -/
structure BoardSettingsUpdate where
  background_type : Option String
  background_source : Option String
  background_config : Option String
  resolution_width : Option Nat
  resolution_height : Option Nat
  aspect_ratio : Option String
  orientation : Option String
  auto_rotate_pages : Option Bool
  lockout_mode : Option Bool
  deriving Repr, DecidableEq

/-- A fresh settings row with only `board_id` set, as constructed by
`BoardSettings(board_id=board_id)`. -/
def default_settings (board_id : Nat) : BoardSettings :=
  { board_id := board_id
    background_type := none
    background_source := none
    background_config := none
    resolution_width := none
    resolution_height := none
    aspect_ratio := none
    orientation := none
    auto_rotate_pages := 0
    lockout_mode := 0 }

/-- The field-by-field partial update of `update_board_settings`
(app/api/v1/boards.py lines 683-700); the two boolean flags are stored
as 0/1 integers. -/
def apply_settings_update (s : BoardSettings) (d : BoardSettingsUpdate) :
    BoardSettings :=
  { s with
    background_type := match d.background_type with
      | some v => some v | none => s.background_type
    background_source := match d.background_source with
      | some v => some v | none => s.background_source
    background_config := match d.background_config with
      | some v => some v | none => s.background_config
    resolution_width := match d.resolution_width with
      | some v => some v | none => s.resolution_width
    resolution_height := match d.resolution_height with
      | some v => some v | none => s.resolution_height
    aspect_ratio := match d.aspect_ratio with
      | some v => some v | none => s.aspect_ratio
    orientation := match d.orientation with
      | some v => some v | none => s.orientation
    auto_rotate_pages := match d.auto_rotate_pages with
      | some b => if b then 1 else 0 | none => s.auto_rotate_pages
    lockout_mode := match d.lockout_mode with
      | some b => if b then 1 else 0 | none => s.lockout_mode }

/-- app/api/v1/boards.py `update_board_settings` (lines 641-714): 404
when the board is absent, 403 unless owner or admin, else lazily create
the settings row and apply the partial update. -/
def update_board_settings (now : Time) (req : Request) (board_id : Nat)
    (settings_data : BoardSettingsUpdate) (db : DB) :
    Except HTTPError BoardSettings × DB :=
  match get_current_user now req.session_cookie db with
  | (.error e, db) => (.error e, db)
  | (.ok current_user, db) =>
    match db.boards.find? (fun b => b.id == board_id) with
    | none => (.error ⟨404, "Board not found"⟩, db)
    | some board =>
      if board.owner_id ≠ current_user.id ∧ ¬ current_user.is_admin then
        (.error ⟨403, "You don\x27t have permission to update this board\x27s settings"⟩, db)
      else
        match db.board_settings.find? (fun s => s.board_id == board_id) with
        | none =>
          let s := apply_settings_update (default_settings board_id) settings_data
          (.ok s, { db with board_settings := db.board_settings ++ [s] })
        | some s0 =>
          let s := apply_settings_update s0 settings_data
          (.ok s, { db with board_settings := db.board_settings.map (fun r =>
              if r.board_id == board_id then s else r) })

/-- Request body of `POST /boards/{board_id}/access-tokens`. -/
structure BoardAccessTokenCreate where
  name : Option String
  expires_at : Option Time
  deriving Repr, DecidableEq

/-- Partial-update body of `PATCH /boards/{board_id}/access-tokens/{token_id}`. -/
structure BoardAccessTokenUpdate where
  name : Option String
  is_active : Option Bool
  expires_at : Option Time
  deriving Repr, DecidableEq

/-- app/api/v1/board_access_tokens.py `create_access_token` (lines
39-94): 404 when the board is absent, 403 unless owner or admin, else
generate a secret (`plain_token`, modelling `secrets.token_urlsafe(32)`),
store only its hash with `is_active=True`, and return the plaintext —
the only time it is exposed. -/
def create_access_token (hash_token : String → String) (now : Time)
    (req : Request) (board_id : Nat) (token_data : BoardAccessTokenCreate)
    (plain_token : String) (new_id : Nat) (db : DB) :
    Except HTTPError (BoardAccessToken × String) × DB :=
  match get_current_user now req.session_cookie db with
  | (.error e, db) => (.error e, db)
  | (.ok current_user, db) =>
    match db.boards.find? (fun b => b.id == board_id) with
    | none => (.error ⟨404, "Board not found"⟩, db)
    | some board =>
      if board.owner_id ≠ current_user.id ∧ ¬ current_user.is_admin then
        (.error ⟨403, "You don\x27t have permission to create access tokens for this board"⟩, db)
      else
        let row : BoardAccessToken :=
          { id := new_id
            board_id := board_id
            token_hash := hash_token plain_token
            name := token_data.name
            expires_at := token_data.expires_at
            last_used_at := none
            is_active := true }
        (.ok (row, plain_token),
         { db with access_tokens := db.access_tokens ++ [row] })

/-- app/api/v1/board_access_tokens.py `update_access_token` (lines
156-213): 404 / 403 as above, 404 when the token row is absent on that
board, else apply the partial update (name / is_active / expires_at). -/
def update_access_token (now : Time) (req : Request)
    (board_id token_id : Nat) (token_data : BoardAccessTokenUpdate)
    (db : DB) : Except HTTPError BoardAccessToken × DB :=
  match get_current_user now req.session_cookie db with
  | (.error e, db) => (.error e, db)
  | (.ok current_user, db) =>
    match db.boards.find? (fun b => b.id == board_id) with
    | none => (.error ⟨404, "Board not found"⟩, db)
    | some board =>
      if board.owner_id ≠ current_user.id ∧ ¬ current_user.is_admin then
        (.error ⟨403, "You don\x27t have permission to update access tokens for this board"⟩, db)
      else
        match db.access_tokens.find? (fun t =>
            t.id == token_id && t.board_id == board_id) with
        | none => (.error ⟨404, "Access token not found"⟩, db)
        | some tok =>
          let tok := { tok with
            name := match token_data.name with
              | some v => some v | none => tok.name
            is_active := token_data.is_active.getD tok.is_active
            expires_at := match token_data.expires_at with
              | some v => some v | none => tok.expires_at }
          (.ok tok, { db with access_tokens := db.access_tokens.map (fun t =>
              if t.id == token_id then tok else t) })

/-- app/api/v1/board_access_tokens.py `delete_access_token` (lines
225-273): 404 / 403 as above, 404 when the token row is absent on that
board, else delete the row. -/
def delete_access_token (now : Time) (req : Request)
    (board_id token_id : Nat) (db : DB) : Except HTTPError Unit × DB :=
  match get_current_user now req.session_cookie db with
  | (.error e, db) => (.error e, db)
  | (.ok current_user, db) =>
    match db.boards.find? (fun b => b.id == board_id) with
    | none => (.error ⟨404, "Board not found"⟩, db)
    | some board =>
      if board.owner_id ≠ current_user.id ∧ ¬ current_user.is_admin then
        (.error ⟨403, "You don\x27t have permission to delete access tokens for this board"⟩, db)
      else
        match db.access_tokens.find? (fun t =>
            t.id == token_id && t.board_id == board_id) with
        | none => (.error ⟨404, "Access token not found"⟩, db)
        | some _ =>
          (.ok (), { db with access_tokens := db.access_tokens.eraseP (fun t =>
              t.id == token_id && t.board_id == board_id) })

/-! ## Spec-side extraction functions (for claim C5's comparison) -/

/-- First Python-truthy entry of a list of optional strings. -/
def first_truthy : List (Option String) → Option String
  | [] => none
  | o :: rest => if pyTruthy o then o else first_truthy rest

/-- The claim's reading of the extraction policy: the `Authorization`
header contributes a candidate ONLY when it has the exact
`Bearer <token>` form. Written from the spec sentence, to be compared
with `extract_api_token`. -/
def extract_api_token_claimed (req : Request) : Option String :=
  first_truthy
    [req.access_token_query,
     match req.authorization with
     | some auth =>
       if auth.startsWith "Bearer " then some (auth.drop 7) else none
     | none => none,
     req.x_access_token]

/-- The extraction policy the code actually implements, phrased as a
priority list: a truthy `Authorization` header always contributes a
candidate — the text after `Bearer ` when that prefix is present,
otherwise the whole header value. -/
def extract_api_token_amended (req : Request) : Option String :=
  first_truthy
    [req.access_token_query,
     match req.authorization with
     | some auth =>
       if auth.startsWith "Bearer " then some (auth.drop 7) else some auth
     | none => none,
     req.x_access_token]

/-! ## Concrete sample data used by the witness theorems -/

/-- Sample deterministic digest standing in for the SHA-256 hex digest
in witnesses (the theorems hold for any digest). -/
def sampleHash (s : String) : String := s ++ "#"

/-- An active, unexpired access token for board 3 whose hash is that of
the plaintext `"secret"` under `sampleHash`. -/
def sampleTokenRow : BoardAccessToken :=
  { id := 21, board_id := 3, token_hash := "secret#", name := some "kiosk",
    expires_at := none, last_used_at := none, is_active := true }

/-- Board 3, `Home`, owned by user 7. -/
def sampleBoard : Board :=
  { id := 3, owner_id := 7, title := "Home", description := none,
    layout_config := "" }

/-- Store for the resolver witnesses: user 7 owns board 3 with one
usable access token; one live session for user 7. -/
def sampleDB : DB :=
  { users := [⟨7, "alice", "HASH", false, none⟩],
    boards := [sampleBoard],
    widgets := [], board_settings := [],
    sessions := [⟨"cookie7", 7, 100⟩],
    access_tokens := [sampleTokenRow] }

/-- Store with a second user 8 (`bo`, no boards) and sessions for both
users. -/
def sampleDB2 : DB :=
  { users := [⟨7, "alice", "HASH", false, none⟩, ⟨8, "bo", "HASH", false, none⟩],
    boards := [sampleBoard],
    widgets := [], board_settings := [],
    sessions := [⟨"cookie7", 7, 100⟩, ⟨"cookie8", 8, 100⟩],
    access_tokens := [] }

/-- The mismatch request of the resolver witnesses: the token for
board 3 presented against board 4, with no session cookie. -/
def sampleReqMismatch : Request :=
  { access_token_query := some "secret", authorization := none,
    x_access_token := none, session_cookie := none }

/-- `sampleTokenRow` after a touch at time 10. -/
def sampleTouchedRow : BoardAccessToken :=
  { sampleTokenRow with last_used_at := some 10 }

/-- 73 ASCII bytes: 72 copies of `a` then `b`. -/
def pw73a : String := String.mk (List.replicate 72 'a') ++ "b"

/-- 73 ASCII bytes agreeing with `pw73a` on the first 72. -/
def pw73b : String := String.mk (List.replicate 72 'a') ++ "c"

/-- 40 characters of 2-byte UTF-8: 80 encoded bytes but Python
`len` = 40. -/
def pwWide : String := String.mk (List.replicate 40 'é')

/-- 73 identical ASCII characters: rejected by `verify_password`'s
length guard. -/
def pw73x : String := String.mk (List.replicate 73 'x')

/-- Store with a single user `alice` whose password hash can never
verify under the constant sample digest used in the login witnesses. -/
def dbLogin : DB :=
  { users := [⟨1, "alice", "Y", false, none⟩],
    boards := [], widgets := [], board_settings := [],
    sessions := [], access_tokens := [] }

/-! ## Helper lemmas -/

theorem find?_eq_some_of_unique {α} (p : α → Bool) (l : List α) (x : α)
    (hmem : x ∈ l) (hpx : p x = true)
    (huniq : ∀ y ∈ l, p y = true → y = x) : l.find? p = some x := by
  induction l with
  | nil => cases hmem
  | cons a l ih =>
    by_cases hpa : p a = true
    · have ha : a = x := huniq a (List.mem_cons_self a l) hpa
      subst ha
      simp [List.find?, hpa]
    · have hpa' : p a = false := by simpa using hpa
      simp only [List.find?, hpa']
      have hax : x ≠ a := by
        intro h
        rw [h, hpa'] at hpx
        cases hpx
      have hmem' : x ∈ l := by
        rcases List.mem_cons.mp hmem with h | h
        · exact absurd h hax
        · exact h
      exact ih hmem' (fun y hy hpy => huniq y (List.mem_cons_of_mem a hy) hpy)

theorem find?_eraseP_of_countP_le_one {α} (p : α → Bool) (l : List α)
    (h : l.countP p ≤ 1) : (l.eraseP p).find? p = none := by
  induction l with
  | nil => simp
  | cons a l ih =>
    by_cases hpa : p a = true
    · rw [List.eraseP_cons_of_pos hpa]
      rw [List.find?_eq_none]
      intro x hx
      rw [List.countP_cons_of_pos _ _ hpa] at h
      have hzero : l.countP p = 0 := by omega
      have := List.countP_eq_zero.mp hzero x hx
      simpa using this
    · rw [List.eraseP_cons_of_neg hpa]
      have hpa' : p a = false := by simpa using hpa
      simp only [List.find?, hpa']
      apply ih
      rw [List.countP_cons_of_neg _ _ hpa] at h
      exact h

/-- `get_current_user_optional` can only touch the `sessions` table:
users, boards, widgets, settings and access tokens are untouched. -/
theorem get_current_user_optional_frame (now : Time) (c : Option String)
    (db : DB) :
    ((get_current_user_optional now c db).2).users = db.users ∧
    ((get_current_user_optional now c db).2).boards = db.boards ∧
    ((get_current_user_optional now c db).2).widgets = db.widgets ∧
    ((get_current_user_optional now c db).2).board_settings = db.board_settings ∧
    ((get_current_user_optional now c db).2).access_tokens = db.access_tokens := by
  unfold get_current_user_optional get_current_user get_session_user_id
  rcases c with _ | tok
  · simp [pyTruthy]
  · by_cases htok : tok = ""
    · simp [pyTruthy, htok]
    · simp only [pyTruthy]
      rcases hf : (db.sessions.find? (fun s => s.token == tok)) with _ | s
      · simp [hf, htok, pyTruthyNat]
      · by_cases hexp : s.is_expired now = true
        · simp [hf, htok, hexp, pyTruthyNat]
        · by_cases huid : s.user_id = 0
          · simp [hf, htok, hexp, huid, pyTruthyNat]
          · rcases hu : (db.users.find? (fun u => u.id == s.user_id)) with _ | u
            · simp [hf, htok, hexp, huid, pyTruthyNat, hu]
            · simp [hf, htok, hexp, huid, pyTruthyNat, hu]

/-! ## Claim C4: session resolution -/

/-- C4: session resolution returns `none` when no row with the token
exists; when the row exists but `now > expires_at`, it deletes the row
and returns `none` — so a second resolve of the same token returns
`none` with no further side effect; otherwise it returns the stored
`user_id`. (Session tokens carry a unique index, hence the
`countP ≤ 1` hypothesis.) -/
theorem session_resolution_spec (now now2 : Time) (token : String) (db : DB)
    (huniq : db.sessions.countP (fun s => s.token == token) ≤ 1) :
    (db.sessions.find? (fun s => s.token == token) = none →
      get_session_user_id now token db = (none, db))
    ∧ (∀ s, db.sessions.find? (fun s => s.token == token) = some s →
        (now > s.expires_at →
          get_session_user_id now token db =
            (none, { db with
              sessions := db.sessions.eraseP (fun r => r.token == token) })
          ∧ get_session_user_id now2 token
              (get_session_user_id now token db).2 =
            (none, (get_session_user_id now token db).2))
        ∧ (¬ now > s.expires_at →
            get_session_user_id now token db = (some s.user_id, db))) := by
  refine ⟨fun habs => ?_, fun s hf => ⟨fun hexp => ⟨?_, ?_⟩, fun hlive => ?_⟩⟩
  · unfold get_session_user_id
    rw [habs]
  · unfold get_session_user_id
    rw [hf]
    simp [SessionRow.is_expired, hexp]
  · have h1 : get_session_user_id now token db =
        (none, { db with
          sessions := db.sessions.eraseP (fun r => r.token == token) }) := by
      unfold get_session_user_id
      rw [hf]
      simp [SessionRow.is_expired, hexp]
    rw [h1]
    unfold get_session_user_id
    rw [find?_eraseP_of_countP_le_one _ _ huniq]
  · unfold get_session_user_id
    rw [hf]
    simp only [SessionRow.is_expired]
    rw [if_neg (by simpa using hlive)]

/-- Witness for C4 at a concrete store: one live and one expired
session. -/
theorem session_resolution_spec_witness :
    get_session_user_id 10 "tokA"
      { users := [], boards := [], widgets := [], board_settings := [],
        sessions := [⟨"tokA", 7, 5⟩, ⟨"tokB", 8, 50⟩], access_tokens := [] } =
      (none,
       { users := [], boards := [], widgets := [], board_settings := [],
         sessions := [⟨"tokB", 8, 50⟩], access_tokens := [] }) := by
  have h := session_resolution_spec 10 11 "tokA"
    { users := [], boards := [], widgets := [], board_settings := [],
      sessions := [⟨"tokA", 7, 5⟩, ⟨"tokB", 8, 50⟩], access_tokens := [] }
    (by decide)
  have h2 := (h.2 ⟨"tokA", 7, 5⟩ (by decide)).1 (by decide)
  exact h2.1.trans (by decide)

/-! ## Claim C3: access-token resolution -/

/-- C3: access-token resolution hashes the candidate and looks it up by
hash: `none` when no row carries that hash, `none` when the carrying row
is inactive, `none` when its `expires_at` is set and not in the future;
when a usable row matches, its `last_used_at` is set to now and the
associated board is returned. (`token_hash` and board ids carry unique
indexes, hence the uniqueness hypotheses on the positive cases.) -/
theorem access_token_resolution_spec (hash_token : String → String)
    (now : Time) (req : Request) (db : DB) (tok : String)
    (hext : extract_api_token req = some tok) :
    ((∀ t ∈ db.access_tokens, t.token_hash ≠ hash_token tok) →
      get_board_from_api_key hash_token now req db = (none, db))
    ∧ (∀ t ∈ db.access_tokens, t.token_hash = hash_token tok →
        t.is_active = false →
        (∀ t2 ∈ db.access_tokens, t2.token_hash = hash_token tok → t2 = t) →
        get_board_from_api_key hash_token now req db = (none, db))
    ∧ (∀ t ∈ db.access_tokens, ∀ e : Time, t.token_hash = hash_token tok →
        t.expires_at = some e → ¬ e > now →
        (∀ t2 ∈ db.access_tokens, t2.token_hash = hash_token tok → t2 = t) →
        get_board_from_api_key hash_token now req db = (none, db))
    ∧ (∀ t ∈ db.access_tokens, ∀ b ∈ db.boards,
        t.token_hash = hash_token tok → t.is_active = true →
        (t.expires_at = none ∨ ∃ e : Time, t.expires_at = some e ∧ e > now) →
        b.id = t.board_id →
        (∀ t2 ∈ db.access_tokens, t2.token_hash = hash_token tok → t2 = t) →
        (∀ b2 ∈ db.boards, b2.id = t.board_id → b2 = b) →
        get_board_from_api_key hash_token now req db =
          (some b,
           { db with access_tokens := db.access_tokens.map (fun t2 =>
               if t2.id == t.id then { t2 with last_used_at := some now }
               else t2) })) := by
  unfold get_board_from_api_key
  refine ⟨fun hnone => ?_,
          fun t ht hhash hinact huniq => ?_,
          fun t ht e hhash hexp hpast huniq => ?_,
          fun t ht b hb hhash hact hexp hbid huniq huniqb => ?_⟩
  · have hfind : db.access_tokens.find? (fun t =>
        token_row_matches now (hash_token tok) t &&
        db.boards.any (fun b => b.id == t.board_id)) = none := by
      rw [List.find?_eq_none]
      intro y hy
      have := hnone y hy
      simp [token_row_matches, this]
    simp [hext, hfind]
  · have hfind : db.access_tokens.find? (fun t =>
        token_row_matches now (hash_token tok) t &&
        db.boards.any (fun b => b.id == t.board_id)) = none := by
      rw [List.find?_eq_none]
      intro y hy
      by_cases hyh : y.token_hash = hash_token tok
      · have hy_t : y = t := huniq y hy hyh
        subst hy_t
        simp [token_row_matches, hinact]
      · simp [token_row_matches, hyh]
    simp [hext, hfind]
  · have hfind : db.access_tokens.find? (fun t =>
        token_row_matches now (hash_token tok) t &&
        db.boards.any (fun b => b.id == t.board_id)) = none := by
      rw [List.find?_eq_none]
      intro y hy
      by_cases hyh : y.token_hash = hash_token tok
      · have hy_t : y = t := huniq y hy hyh
        subst hy_t
        simp [token_row_matches, hexp, hpast]
      · simp [token_row_matches, hyh]
    simp [hext, hfind]
  · have hpred : (token_row_matches now (hash_token tok) t &&
        db.boards.any (fun b2 => b2.id == t.board_id)) = true := by
      have hany : db.boards.any (fun b2 => b2.id == t.board_id) = true := by
        rw [List.any_eq_true]
        exact ⟨b, hb, by simpa using hbid⟩
      rcases hexp with hnone2 | ⟨e, he, hegt⟩
      · simp [token_row_matches, hhash, hact, hnone2, hany]
      · simp [token_row_matches, hhash, hact, he, hegt, hany]
    have hfind : db.access_tokens.find? (fun t2 =>
        token_row_matches now (hash_token tok) t2 &&
        db.boards.any (fun b2 => b2.id == t2.board_id)) = some t := by
      apply find?_eq_some_of_unique _ _ _ ht hpred
      intro y hy hpy
      apply huniq y hy
      have : token_row_matches now (hash_token tok) y = true := by
        simp only [Bool.and_eq_true] at hpy
        exact hpy.1
      simp only [token_row_matches, Bool.and_eq_true, beq_iff_eq] at this
      exact this.1.1
    have hfindb : db.boards.find? (fun b2 => b2.id == t.board_id) = some b := by
      apply find?_eq_some_of_unique _ _ _ hb (by simpa using hbid)
      intro y hy hpy
      exact huniqb y hy (by simpa using hpy)
    simp [hext, hfind, hfindb]

/-- Witness for C3: the usable-token case at the concrete store. -/
theorem access_token_resolution_spec_witness :
    get_board_from_api_key sampleHash 10
      { access_token_query := some "secret", authorization := none,
        x_access_token := none, session_cookie := none } sampleDB =
      (some sampleBoard,
       { sampleDB with access_tokens :=
          [{ sampleTokenRow with last_used_at := some 10 }] }) := by
  have h := (access_token_resolution_spec sampleHash 10
    { access_token_query := some "secret", authorization := none,
      x_access_token := none, session_cookie := none } sampleDB "secret"
    (by decide)).2.2.2 sampleTokenRow (by decide) sampleBoard (by decide)
    (by decide) (by decide) (Or.inl (by decide)) (by decide)
    (by intro t2 h2 h3
        simp only [sampleDB, List.mem_singleton] at h2
        exact h2)
    (by intro b2 h2 h3
        simp only [sampleDB, List.mem_singleton] at h2
        exact h2)
  exact h.trans (by decide)

/-! ## Claim C5: token-candidate extraction -/

/-- C5 counterexample: with no query parameter, `Authorization: tok`
(no `Bearer ` prefix) and `X-Access-Token: other`, the code takes the
whole `Authorization` value as the candidate, while the claim says the
`Authorization` header contributes only in `Bearer <token>` form, so the
candidate would have to be `other`. -/
theorem extraction_policy_counterexample :
    extract_api_token
      { access_token_query := none, authorization := some "tok",
        x_access_token := some "other", session_cookie := none } = some "tok"
    ∧ extract_api_token_claimed
      { access_token_query := none, authorization := some "tok",
        x_access_token := some "other", session_cookie := none } = some "other"
    ∧ extract_api_token
      { access_token_query := none, authorization := some "tok",
        x_access_token := some "other", session_cookie := none } ≠
      extract_api_token_claimed
      { access_token_query := none, authorization := some "tok",
        x_access_token := some "other", session_cookie := none } := by
  refine ⟨?_, ?_, ?_⟩ <;> decide

/-- C5 amended: the candidate is the first Python-truthy entry of, in
order, the `access_token` query parameter, the `Authorization` header
whenever non-empty (the text after `Bearer ` when that prefix is
present, otherwise the entire header value), and the `X-Access-Token`
header; otherwise there is no candidate. -/
theorem extraction_policy_amended (req : Request) :
    extract_api_token req = extract_api_token_amended req := by
  rcases req with ⟨q, a, x, c⟩
  simp only [extract_api_token, extract_api_token_amended, first_truthy]
  by_cases hq : pyTruthy q
  · simp [hq]
  · rcases a with _ | as
    · rcases q with _ | qs
      · simp [pyTruthy]
      · have hqs : qs = "" := by simpa [pyTruthy] using hq
        subst hqs
        simp [pyTruthy]
    · by_cases ha : pyTruthy (some as)
      · by_cases hb : as.startsWith "Bearer "
        · by_cases hd : pyTruthy (some (as.drop 7))
          · simp [hq, ha, hb, hd]
          · simp [hq, ha, hb, hd]
        · have has : pyTruthy (some as) = true := ha
          simp [hq, ha, hb, has]
      · have has : as = "" := by
          simpa [pyTruthy] using ha
        subst has
        rcases q with _ | qs
        · simp [pyTruthy]
        · have hqs : qs = "" := by simpa [pyTruthy] using hq
          subst hqs
          simp [pyTruthy]

/-! ## Claim C6: 72-byte password ceiling -/

/-- C6: the code does not enforce the 72-byte ceiling the claim states.
`get_password_hash` performs no length check at all — it returns
normally on a 73-byte password and, through bcrypt's silent truncation,
collides two distinct passwords agreeing on their first 72 bytes; and
`verify_password` guards on the character count, so a 40-character
80-byte password passes the guard and is compared instead of raising. -/
theorem password_ceiling_not_enforced (digest : List Nat → String)
    (stored : String) :
    72 < (strBytes pw73a).length
    ∧ (∃ hsh, get_password_hash digest pw73a = .ok hsh)
    ∧ get_password_hash digest pw73a = get_password_hash digest pw73b
    ∧ pw73a ≠ pw73b
    ∧ 72 < (strBytes pwWide).length
    ∧ verify_password digest pwWide stored =
        .ok (digest (bcrypt_effective_input (strBytes pwWide)) == stored) := by
  refine ⟨by decide, ⟨digest (bcrypt_effective_input (strBytes pw73a)), rfl⟩,
          ?_, by decide, by decide, ?_⟩
  · unfold get_password_hash
    have h : bcrypt_effective_input (strBytes pw73a) =
        bcrypt_effective_input (strBytes pw73b) := by decide
    rw [h]
  · unfold verify_password
    rw [if_neg (by decide)]

/-! ## Claim C7: login-failure indistinguishability -/

/-- C7 counterexample: with a 73-character password, the run against the
existing user `alice` escapes with an uncaught `ValueError` (a
500-class response) while the run against the absent user `bob` returns
the generic 401 — the two failure runs are observationally
distinguishable, refuting the claim as stated. -/
theorem login_indistinguishability_counterexample :
    (login (fun _ => "X") 5 "alice" pw73x dbLogin).1 =
      .valueError "Password cannot be longer than 72 bytes"
    ∧ (login (fun _ => "X") 5 "bob" pw73x dbLogin).1 =
      .httpError ⟨401, "Invalid username or password"⟩
    ∧ (login (fun _ => "X") 5 "alice" pw73x dbLogin).1 ≠
      (login (fun _ => "X") 5 "bob" pw73x dbLogin).1 := by
  refine ⟨?_, ?_, ?_⟩ <;> decide

/-- C7 amended: for login requests whose password is at most 72
characters, the two authentication-failure causes — unknown username,
and a password that does not verify against the stored hash — produce
the identical generic `401 Invalid username or password` response. For
longer passwords the unknown-username run still returns that 401 while
the existing-user run raises `ValueError` instead. -/
theorem login_failure_indistinguishable (digest : List Nat → String)
    (now : Time) (username password : String) (db : DB)
    (hlen : password.length ≤ 72) :
    (db.users.find? (fun u => u.username == username) = none →
      (login digest now username password db).1 =
        .httpError ⟨401, "Invalid username or password"⟩)
    ∧ (∀ user, db.users.find? (fun u => u.username == username) = some user →
        digest (bcrypt_effective_input (strBytes password)) ≠
          user.password_hash →
        (login digest now username password db).1 =
          .httpError ⟨401, "Invalid username or password"⟩) := by
  constructor
  · intro habs
    unfold login
    simp [habs]
  · intro user hfound hbad
    have hv : verify_password digest password user.password_hash = .ok false := by
      unfold verify_password
      rw [if_neg (by omega)]
      simp [hbad]
    unfold login
    simp [hfound, hv]

/-- Witness for C7's amended theorem: both failure causes at a concrete
store and digest. -/
theorem login_failure_indistinguishable_witness :
    (login (fun _ => "X") 5 "bob" "pw" dbLogin).1 =
      .httpError ⟨401, "Invalid username or password"⟩
    ∧ (login (fun _ => "X") 5 "alice" "pw" dbLogin).1 =
      .httpError ⟨401, "Invalid username or password"⟩ := by
  have h := login_failure_indistinguishable (fun _ => "X") 5 "bob" "pw" dbLogin
    (by decide)
  have h2 := login_failure_indistinguishable (fun _ => "X") 5 "alice" "pw" dbLogin
    (by decide)
  exact ⟨h.1 (by decide),
         h2.2 ⟨1, "alice", "Y", false, none⟩ (by decide) (by decide)⟩

/-! ## Claim C8: board titles unique per owner -/

/-- C8: a second board with the same title for the same owner fails with
the duplicate-title conflict (HTTP 400, the spec's `Conflict` class) and
nothing is persisted, while the same title under a different owner who
does not already use it succeeds and appends exactly the new board. -/
theorem board_title_unique_per_owner (now : Time) (reqA reqB : Request)
    (board_data : BoardCreate) (new_idA new_idB : Nat) (db : DB)
    (userA userB : User)
    (hA : get_current_user now reqA.session_cookie db = (.ok userA, db))
    (hdup : ∃ b ∈ db.boards, b.owner_id = userA.id ∧ b.title = board_data.title) :
    create_board now reqA board_data new_idA db =
      (.error ⟨400, "A board with the title \x27" ++ board_data.title ++
        "\x27 already exists"⟩, db)
    ∧ (get_current_user now reqB.session_cookie db = (.ok userB, db) →
        (∀ b ∈ db.boards, b.owner_id = userB.id → b.title ≠ board_data.title) →
        create_board now reqB board_data new_idB db =
          (.ok { id := new_idB, owner_id := userB.id, title := board_data.title,
                 description := board_data.description,
                 layout_config := board_data.layout_config.getD "" },
           { db with boards := db.boards ++
              [{ id := new_idB, owner_id := userB.id, title := board_data.title,
                 description := board_data.description,
                 layout_config := board_data.layout_config.getD "" }] })) := by
  constructor
  · unfold create_board
    rw [hA]
    have hany : db.boards.any (fun b =>
        b.owner_id == userA.id && b.title == board_data.title) = true := by
      rw [List.any_eq_true]
      obtain ⟨b, hb, h1, h2⟩ := hdup
      exact ⟨b, hb, by simp [h1, h2]⟩
    simp [hany]
  · intro hB hfresh
    unfold create_board
    rw [hB]
    have hany : db.boards.any (fun b =>
        b.owner_id == userB.id && b.title == board_data.title) = false := by
      rw [Bool.eq_false_iff]
      intro hcontra
      rw [List.any_eq_true] at hcontra
      obtain ⟨b, hb, hpb⟩ := hcontra
      simp only [Bool.and_eq_true, beq_iff_eq] at hpb
      exact hfresh b hb hpb.1 hpb.2
    simp [hany]

/-- Witness for C8 at a concrete store: `alice` (id 7) already owns
`Home`; creating `Home` again for her conflicts, creating `Home` for
`bo` (id 8) succeeds. -/
theorem board_title_unique_per_owner_witness :
    create_board 10
      { access_token_query := none, authorization := none,
        x_access_token := none, session_cookie := some "cookie7" }
      { title := "Home", description := none, layout_config := none } 4
      sampleDB2 =
      (.error ⟨400, "A board with the title \x27Home\x27 already exists"⟩,
       sampleDB2)
    ∧ create_board 10
      { access_token_query := none, authorization := none,
        x_access_token := none, session_cookie := some "cookie8" }
      { title := "Home", description := none, layout_config := none } 4
      sampleDB2 =
      (.ok { id := 4, owner_id := 8, title := "Home", description := none,
             layout_config := "" },
       { sampleDB2 with boards := sampleDB2.boards ++
          [{ id := 4, owner_id := 8, title := "Home", description := none,
             layout_config := "" }] }) := by
  have h := board_title_unique_per_owner 10
    { access_token_query := none, authorization := none,
      x_access_token := none, session_cookie := some "cookie7" }
    { access_token_query := none, authorization := none,
      x_access_token := none, session_cookie := some "cookie8" }
    { title := "Home", description := none, layout_config := none } 4 4
    sampleDB2 ⟨7, "alice", "HASH", false, none⟩ ⟨8, "bo", "HASH", false, none⟩
    rfl ⟨sampleBoard, by decide, by decide, by decide⟩
  refine ⟨h.1, h.2 rfl ?_⟩
  intro b hb hown
  simp only [sampleDB2, List.mem_singleton] at hb
  subst hb
  simp [sampleBoard] at hown

/-! ## Resolver lemmas shared by C1, C9, C10 -/

/-- `get_board_with_auth`, with its pair-destructuring lets written as
projections. -/
theorem get_board_with_auth_eq (hash_token : String → String) (now : Time)
    (board_id : Nat) (req : Request) (db : DB) :
    get_board_with_auth hash_token now board_id req db =
      match (get_board_from_api_key hash_token now req
          (get_current_user_optional now req.session_cookie db).2).1 with
      | some bk =>
        if bk.id == board_id then
          (.ok bk, (get_board_from_api_key hash_token now req
            (get_current_user_optional now req.session_cookie db).2).2)
        else
          session_auth_branch board_id
            (get_current_user_optional now req.session_cookie db).1
            (get_board_from_api_key hash_token now req
              (get_current_user_optional now req.session_cookie db).2).2
      | none =>
        session_auth_branch board_id
          (get_current_user_optional now req.session_cookie db).1
          (get_board_from_api_key hash_token now req
            (get_current_user_optional now req.session_cookie db).2).2 := rfl

/-- The session branch never mutates the store. -/
theorem session_auth_branch_db (board_id : Nat) (cu : Option User) (db : DB) :
    (session_auth_branch board_id cu db).2 = db := by
  unfold session_auth_branch
  rcases cu with _ | u
  · rfl
  · rcases h : db.boards.find? (fun b => b.id == board_id) with _ | b
    · simp [h]
    · simp only [h]
      split
      · rfl
      · rfl

/-- The session branch with no resolved user is the generic 401. -/
theorem session_auth_branch_none (board_id : Nat) (db : DB) :
    session_auth_branch board_id none db =
      (.error ⟨401, "Authentication required"⟩, db) := rfl

/-- The session branch on an absent board is the 404. -/
theorem session_auth_branch_some_absent (board_id : Nat) (u : User) (db : DB)
    (h : db.boards.find? (fun b => b.id == board_id) = none) :
    session_auth_branch board_id (some u) db =
      (.error ⟨404, "Board not found"⟩, db) := by
  unfold session_auth_branch
  rw [h]

/-- The session branch on a found board reduces to the owner-or-admin
check. -/
theorem session_auth_branch_some_found (board_id : Nat) (u : User) (db : DB)
    (board : Board)
    (h : db.boards.find? (fun b => b.id == board_id) = some board) :
    session_auth_branch board_id (some u) db =
      if board.owner_id ≠ u.id ∧ ¬ u.is_admin then
        (.error ⟨403, "You don\x27t have permission to access this board"⟩, db)
      else (.ok board, db) := by
  unfold session_auth_branch
  rw [h]

/-! ## Claim C1: board-id mismatch falls through to session auth -/

/-- C1: when the presented access token resolves to a board `bX` with
`bX.id ≠ board_id`, the resolver does not fail on the mismatch but
yields exactly the session branch; if no session user resolved, that is
the 401 `Authentication required`; and with neither credential
resolving, the same 401 results. -/
theorem resolver_mismatch_falls_through (hash_token : String → String)
    (now : Time) (board_id : Nat) (req : Request) (db : DB) :
    (∀ bX : Board,
      (get_board_from_api_key hash_token now req
        (get_current_user_optional now req.session_cookie db).2).1 = some bX →
      bX.id ≠ board_id →
      get_board_with_auth hash_token now board_id req db =
        session_auth_branch board_id
          (get_current_user_optional now req.session_cookie db).1
          (get_board_from_api_key hash_token now req
            (get_current_user_optional now req.session_cookie db).2).2
      ∧ ((get_current_user_optional now req.session_cookie db).1 = none →
          (get_board_with_auth hash_token now board_id req db).1 =
            .error ⟨401, "Authentication required"⟩))
    ∧ ((get_board_from_api_key hash_token now req
          (get_current_user_optional now req.session_cookie db).2).1 = none →
        (get_current_user_optional now req.session_cookie db).1 = none →
        (get_board_with_auth hash_token now board_id req db).1 =
          .error ⟨401, "Authentication required"⟩) := by
  constructor
  · intro bX hkey hmm
    have hne : (bX.id == board_id) = false := by simpa using hmm
    have hfall : get_board_with_auth hash_token now board_id req db =
        session_auth_branch board_id
          (get_current_user_optional now req.session_cookie db).1
          (get_board_from_api_key hash_token now req
            (get_current_user_optional now req.session_cookie db).2).2 := by
      rw [get_board_with_auth_eq, hkey]
      simp [hne]
    refine ⟨hfall, fun hcu => ?_⟩
    rw [hfall, hcu, session_auth_branch_none]
  · intro hkey hcu
    rw [get_board_with_auth_eq, hkey, hcu, session_auth_branch_none]

/-- Witness for C1: a token valid for board 3 presented against board 4
with no session cookie: the resolver falls through and denies with the
401. -/
theorem resolver_mismatch_falls_through_witness :
    (get_board_with_auth sampleHash 10 4
      { access_token_query := some "secret", authorization := none,
        x_access_token := none, session_cookie := none } sampleDB).1 =
      .error ⟨401, "Authentication required"⟩ := by
  have h := (resolver_mismatch_falls_through sampleHash 10 4
    { access_token_query := some "secret", authorization := none,
      x_access_token := none, session_cookie := none } sampleDB).1
    sampleBoard (by decide) (by decide)
  exact h.2 (by decide)

/-! ## Claim C9: last_used_at is touched even on board-id mismatch -/

/-- C9: whenever the presented candidate resolves to a usable token row
(with an existing board), that row's `last_used_at` is set to now in the
store `get_board_with_auth` leaves behind — with no constraint relating
the row's board to the requested `board_id`, so in particular also when
they differ and the token grants nothing. -/
theorem token_touched_even_on_mismatch (hash_token : String → String)
    (now : Time) (board_id : Nat) (req : Request) (db : DB)
    (tok : String) (row : BoardAccessToken)
    (hext : extract_api_token req = some tok)
    (hrow : row ∈ db.access_tokens)
    (hmatch : (token_row_matches now (hash_token tok) row &&
      db.boards.any (fun b => b.id == row.board_id)) = true)
    (huniq : ∀ t2 ∈ db.access_tokens, t2.token_hash = hash_token tok → t2 = row) :
    ∀ t ∈ ((get_board_with_auth hash_token now board_id req db).2).access_tokens,
      t.id = row.id → t.last_used_at = some now := by
  have hframe := get_current_user_optional_frame now req.session_cookie db
  set db1 := (get_current_user_optional now req.session_cookie db).2 with hdb1
  have htoks : db1.access_tokens = db.access_tokens := hframe.2.2.2.2
  have hboards : db1.boards = db.boards := hframe.2.1
  have hfind : db1.access_tokens.find? (fun t2 =>
      token_row_matches now (hash_token tok) t2 &&
      db1.boards.any (fun b => b.id == t2.board_id)) = some row := by
    rw [htoks, hboards]
    apply find?_eq_some_of_unique _ _ _ hrow hmatch
    intro y hy hpy
    apply huniq y hy
    simp only [token_row_matches, Bool.and_eq_true, beq_iff_eq] at hpy
    exact hpy.1.1.1
  have hkey : (get_board_from_api_key hash_token now req db1).2 =
      { db1 with access_tokens := db1.access_tokens.map (fun t2 =>
          if t2.id == row.id then { t2 with last_used_at := some now }
          else t2) } := by
    unfold get_board_from_api_key
    simp [hext, hfind]
  have hres : ((get_board_with_auth hash_token now board_id req db).2) =
      (get_board_from_api_key hash_token now req db1).2 := by
    rw [get_board_with_auth_eq]
    rcases hk : (get_board_from_api_key hash_token now req db1).1 with _ | bk
    · simp only []
      rw [session_auth_branch_db]
    · simp only []
      split
      · rfl
      · rw [session_auth_branch_db]
  rw [hres, hkey]
  intro t ht hid
  simp only [List.mem_map] at ht
  obtain ⟨t0, ht0, hmap⟩ := ht
  by_cases h0 : (t0.id == row.id) = true
  · rw [if_pos h0] at hmap
    rw [← hmap]
  · rw [if_neg (by simpa using h0)] at hmap
    subst hmap
    exact absurd hid (by simpa using h0)

/-- Witness for C9: after the token for board 3 is presented against
board 4 (a denied, mismatched request), the token row found in the
resulting store has `last_used_at = 10`. -/
theorem token_touched_even_on_mismatch_witness :
    sampleTouchedRow ∈
      ((get_board_with_auth sampleHash 10 4 sampleReqMismatch
        sampleDB).2).access_tokens
    ∧ sampleTouchedRow.last_used_at = some 10 := by
  have hmem : sampleTouchedRow ∈
      ((get_board_with_auth sampleHash 10 4 sampleReqMismatch
        sampleDB).2).access_tokens := by decide
  refine ⟨hmem, ?_⟩
  exact token_touched_even_on_mismatch sampleHash 10 4 sampleReqMismatch
    sampleDB "secret" sampleTokenRow (by decide) (by decide) (by decide)
    (by intro t2 h2 h3
        simp only [sampleDB, List.mem_singleton] at h2
        exact h2)
    sampleTouchedRow hmem (by decide)

/-! ## Claim C10: 404 before 403 in the session branch -/

/-- C10: with a resolved session user and no API-key grant for the
target board, a nonexistent board yields 404 regardless of ownership;
403 arises exactly when the board exists, is owned by someone else, and
the user is not an admin. -/
theorem session_branch_404_before_403 (hash_token : String → String)
    (now : Time) (board_id : Nat) (req : Request) (db : DB) (u : User)
    (hcu : (get_current_user_optional now req.session_cookie db).1 = some u)
    (hnokey : ∀ b : Board,
      (get_board_from_api_key hash_token now req
        (get_current_user_optional now req.session_cookie db).2).1 = some b →
      b.id ≠ board_id) :
    (db.boards.find? (fun b => b.id == board_id) = none →
      (get_board_with_auth hash_token now board_id req db).1 =
        .error ⟨404, "Board not found"⟩)
    ∧ (∀ board, db.boards.find? (fun b => b.id == board_id) = some board →
        board.owner_id ≠ u.id → u.is_admin = false →
        (get_board_with_auth hash_token now board_id req db).1 =
          .error ⟨403, "You don\x27t have permission to access this board"⟩)
    ∧ (∀ e, (get_board_with_auth hash_token now board_id req db).1 =
          .error e → e.status = 403 →
        ∃ board, db.boards.find? (fun b => b.id == board_id) = some board ∧
          board.owner_id ≠ u.id ∧ u.is_admin = false) := by
  have hframe := get_current_user_optional_frame now req.session_cookie db
  set db1 := (get_current_user_optional now req.session_cookie db).2 with hdb1
  have hboards : db1.boards = db.boards := hframe.2.1
  have hkb : ((get_board_from_api_key hash_token now req db1).2).boards =
      db.boards := by
    unfold get_board_from_api_key
    rcases he : extract_api_token req with _ | tok
    · simpa using hboards
    · simp only [he]
      rcases hf : db1.access_tokens.find? (fun t =>
          token_row_matches now (hash_token tok) t &&
          db1.boards.any (fun b => b.id == t.board_id)) with _ | t
      · simpa [hf] using hboards
      · simpa [hf] using hboards
  have hfall : get_board_with_auth hash_token now board_id req db =
      session_auth_branch board_id (some u)
        (get_board_from_api_key hash_token now req db1).2 := by
    rw [get_board_with_auth_eq, ← hdb1, hcu]
    rcases hk : (get_board_from_api_key hash_token now req db1).1 with _ | bk
    · rfl
    · have := hnokey bk hk
      simp [this]
  constructor
  · intro habs
    rw [hfall, session_auth_branch_some_absent board_id u _
      (by rw [hkb]; exact habs)]
  constructor
  · intro board hb hown hadm
    rw [hfall, session_auth_branch_some_found board_id u _ board
      (by rw [hkb]; exact hb)]
    rw [if_pos ⟨hown, by simp [hadm]⟩]
  · intro e he hstat
    rw [hfall] at he
    rcases hb : db.boards.find? (fun b => b.id == board_id) with _ | board
    · rw [session_auth_branch_some_absent board_id u _
        (by rw [hkb]; exact hb)] at he
      simp only [] at he
      injection he with he404
      rw [← he404] at hstat
      simp at hstat
    · rw [session_auth_branch_some_found board_id u _ board
        (by rw [hkb]; exact hb)] at he
      by_cases hcase : board.owner_id ≠ u.id ∧ ¬ u.is_admin
      · exact ⟨board, hb, hcase.1, by simpa using hcase.2⟩
      · rw [if_neg hcase] at he
        simp at he

/-- Witness for C10: `alice`'s session against the nonexistent board 4
yields 404 even though she owns no board 4 (existence precedes
ownership). -/
theorem session_branch_404_before_403_witness :
    (get_board_with_auth sampleHash 10 4
      { access_token_query := none, authorization := none,
        x_access_token := none, session_cookie := some "cookie7" }
      sampleDB).1 = .error ⟨404, "Board not found"⟩ := by
  have h := session_branch_404_before_403 sampleHash 10 4
    { access_token_query := none, authorization := none,
      x_access_token := none, session_cookie := some "cookie7" }
    sampleDB ⟨7, "alice", "HASH", false, none⟩ rfl
    (by intro b hb; simp [get_board_from_api_key, extract_api_token,
          pyTruthy] at hb)
  exact h.1 (by decide)

/-! ## Claim C2: writes accept only the session/ownership path -/

/-- `get_current_user` can only touch the `sessions` table. -/
theorem get_current_user_frame (now : Time) (c : Option String) (db : DB) :
    ((get_current_user now c db).2).boards = db.boards := by
  unfold get_current_user get_session_user_id
  rcases c with _ | tok
  · simp [pyTruthy]
  · by_cases htok : tok = ""
    · simp [pyTruthy, htok]
    · simp only [pyTruthy]
      rcases hf : (db.sessions.find? (fun s => s.token == tok)) with _ | s
      · simp [hf, htok, pyTruthyNat]
      · by_cases hexp : s.is_expired now = true
        · simp [hf, htok, hexp, pyTruthyNat]
        · by_cases huid : s.user_id = 0
          · simp [hf, htok, hexp, huid, pyTruthyNat]
          · rcases hu : (db.users.find? (fun u => u.id == s.user_id)) with _ | u
            · simp [hf, htok, hexp, huid, pyTruthyNat, hu]
            · simp [hf, htok, hexp, huid, pyTruthyNat, hu]

/-- C2: write endpoints authorize exclusively via the session path.
First part: with no session cookie, every write endpoint — boards,
widgets, settings, access tokens — answers the `get_current_user` 401
untouched by any access-token material in the request, and leaves the
store unchanged. Second part: when one of the three cited write
endpoints succeeds, a session user resolved and that user is the
board's owner or an admin. -/
theorem writes_require_session_ownership (hash_token : String → String)
    (now : Time) (req : Request) (db : DB)
    (board_id widget_id token_id new_id : Nat)
    (bd : BoardCreate) (bu : BoardUpdate) (wc : WidgetCreate)
    (wu : WidgetUpdate) (su : BoardSettingsUpdate)
    (tc : BoardAccessTokenCreate) (tu : BoardAccessTokenUpdate)
    (plain : String) :
    (req.session_cookie = none →
      create_board now req bd new_id db =
        (.error ⟨401, "Not authenticated"⟩, db)
      ∧ update_board now req board_id bu db =
        (.error ⟨401, "Not authenticated"⟩, db)
      ∧ delete_board now req board_id db =
        (.error ⟨401, "Not authenticated"⟩, db)
      ∧ create_widget now req board_id wc new_id db =
        (.error ⟨401, "Not authenticated"⟩, db)
      ∧ update_widget now req board_id widget_id wu db =
        (.error ⟨401, "Not authenticated"⟩, db)
      ∧ delete_widget now req board_id widget_id db =
        (.error ⟨401, "Not authenticated"⟩, db)
      ∧ update_board_settings now req board_id su db =
        (.error ⟨401, "Not authenticated"⟩, db)
      ∧ create_access_token hash_token now req board_id tc plain new_id db =
        (.error ⟨401, "Not authenticated"⟩, db)
      ∧ update_access_token now req board_id token_id tu db =
        (.error ⟨401, "Not authenticated"⟩, db)
      ∧ delete_access_token now req board_id token_id db =
        (.error ⟨401, "Not authenticated"⟩, db))
    ∧ (∀ r db2, update_board now req board_id bu db = (.ok r, db2) →
        ∃ u board, (get_current_user now req.session_cookie db).1 = .ok u ∧
          db.boards.find? (fun b => b.id == board_id) = some board ∧
          (board.owner_id = u.id ∨ u.is_admin = true))
    ∧ (∀ r db2,
        update_board_settings now req board_id su db = (.ok r, db2) →
        ∃ u board, (get_current_user now req.session_cookie db).1 = .ok u ∧
          db.boards.find? (fun b => b.id == board_id) = some board ∧
          (board.owner_id = u.id ∨ u.is_admin = true))
    ∧ (∀ r db2,
        create_access_token hash_token now req board_id tc plain new_id db =
          (.ok r, db2) →
        ∃ u board, (get_current_user now req.session_cookie db).1 = .ok u ∧
          db.boards.find? (fun b => b.id == board_id) = some board ∧
          (board.owner_id = u.id ∨ u.is_admin = true)) := by
  have hbframe := get_current_user_frame now req.session_cookie db
  refine ⟨fun hns => ?_, ?_, ?_, ?_⟩
  · rcases req with ⟨q, a, x, c⟩
    have hc : c = none := hns
    subst hc
    exact ⟨rfl, rfl, rfl, rfl, rfl, rfl, rfl, rfl, rfl, rfl⟩
  · intro r db2 h
    rcases hcu : get_current_user now req.session_cookie db with ⟨cures, db1⟩
    unfold update_board at h
    rw [hcu] at h
    rcases cures with e | u
    · simp at h
    · simp only [] at h
      rcases hf : db1.boards.find? (fun b => b.id == board_id) with _ | board
      · rw [hf] at h
        simp at h
      · rw [hf] at h
        simp only [] at h
        by_cases hperm : board.owner_id ≠ u.id ∧ ¬ u.is_admin
        · rw [if_pos hperm] at h
          simp at h
        · refine ⟨u, board, rfl, ?_, ?_⟩
          · have hb1 : db1.boards = db.boards := by
              rw [hcu] at hbframe
              exact hbframe
            rw [← hb1]
            exact hf
          · rcases not_and_or.mp hperm with h1 | h2
            · exact Or.inl (not_not.mp h1)
            · exact Or.inr (by simpa using h2)
  · intro r db2 h
    rcases hcu : get_current_user now req.session_cookie db with ⟨cures, db1⟩
    unfold update_board_settings at h
    rw [hcu] at h
    rcases cures with e | u
    · simp at h
    · simp only [] at h
      rcases hf : db1.boards.find? (fun b => b.id == board_id) with _ | board
      · rw [hf] at h
        simp at h
      · rw [hf] at h
        simp only [] at h
        by_cases hperm : board.owner_id ≠ u.id ∧ ¬ u.is_admin
        · rw [if_pos hperm] at h
          simp at h
        · refine ⟨u, board, rfl, ?_, ?_⟩
          · have hb1 : db1.boards = db.boards := by
              rw [hcu] at hbframe
              exact hbframe
            rw [← hb1]
            exact hf
          · rcases not_and_or.mp hperm with h1 | h2
            · exact Or.inl (not_not.mp h1)
            · exact Or.inr (by simpa using h2)
  · intro r db2 h
    rcases hcu : get_current_user now req.session_cookie db with ⟨cures, db1⟩
    unfold create_access_token at h
    rw [hcu] at h
    rcases cures with e | u
    · simp at h
    · simp only [] at h
      rcases hf : db1.boards.find? (fun b => b.id == board_id) with _ | board
      · rw [hf] at h
        simp at h
      · rw [hf] at h
        simp only [] at h
        by_cases hperm : board.owner_id ≠ u.id ∧ ¬ u.is_admin
        · rw [if_pos hperm] at h
          simp at h
        · refine ⟨u, board, rfl, ?_, ?_⟩
          · have hb1 : db1.boards = db.boards := by
              rw [hcu] at hbframe
              exact hbframe
            rw [← hb1]
            exact hf
          · rcases not_and_or.mp hperm with h1 | h2
            · exact Or.inl (not_not.mp h1)
            · exact Or.inr (by simpa using h2)

/-- Witness for C2: a request presenting only a valid access token for
board 3 (no session cookie) is denied on a representative write — the
settings update — with the store untouched, while the same token does
grant the read path. -/
theorem writes_require_session_ownership_witness :
    update_board_settings 10
      { access_token_query := some "secret", authorization := none,
        x_access_token := none, session_cookie := none } 3
      { background_type := none, background_source := none,
        background_config := none, resolution_width := none,
        resolution_height := none, aspect_ratio := none, orientation := none,
        auto_rotate_pages := none, lockout_mode := none } sampleDB =
      (.error ⟨401, "Not authenticated"⟩, sampleDB) := by
  have h := (writes_require_session_ownership sampleHash 10
    { access_token_query := some "secret", authorization := none,
      x_access_token := none, session_cookie := none } sampleDB 3 1 21 50
    { title := "t", description := none, layout_config := none }
    { title := none, description := none, layout_config := none }
    { type := "clock", config := none, position := none }
    { type := none, config := none, position := none }
    { background_type := none, background_source := none,
      background_config := none, resolution_width := none,
      resolution_height := none, aspect_ratio := none, orientation := none,
      auto_rotate_pages := none, lockout_mode := none }
    { name := none, expires_at := none }
    { name := none, is_active := none, expires_at := none }
    "plain").1 rfl
  exact h.2.2.2.2.2.2.1

end Zer0Board
